import Mathlib

/-!
Verification development for the pdf-downloader batch script of the
utilities repository (src/nodejs/pdf-downloader/pdf_downloader.js).

The script reads a list of URLs, and for each URL navigates a single
browser page, waits a settle delay, runs a consent-dismissal pass over a
fixed list of selectors, classifies the page as sign-in gated or not,
and either records the URL in an in-memory ledger or renders the page to
a PDF file.  After the loop the accumulated ledger is written to a
spreadsheet when it is nonempty.

The embedding below models the page-interaction decision pipeline.  The
browser is abstracted as a per-URL environment: the DOM the page exposes
after navigation, whether navigation succeeded, and whether PDF
rendering succeeds.  Externally visible actions (navigation, waits,
clicks, file writes) are collected in an effect trace so that frame
conditions can be stated.
-/

namespace PdfDownloader

/-- Boolean infix test on character lists (needle occurs contiguously in hay). -/
def infixOfList : List Char → List Char → Bool
  | needle, [] => needle.isEmpty
  | needle, a :: t => List.isPrefixOf needle (a :: t) || infixOfList needle t

/-- Substring test modelling the JS includes method: includes hay needle
is true when needle occurs in hay. -/
def includes (hay needle : String) : Bool := infixOfList needle.toList hay.toList

/-- ASCII lower-casing of one character, modelling JS toLowerCase on the
ASCII range (the range the script works with). -/
def charToLower (c : Char) : Char :=
  if 65 ≤ c.toNat ∧ c.toNat ≤ 90 then Char.ofNat (c.toNat + 32) else c

/-- ASCII lower-casing of a string, modelling the JS toLowerCase calls. -/
def strToLower (s : String) : String := String.mk (s.toList.map charToLower)

/-- A DOM element, carrying the attributes the script queries: tag name,
id, class attribute, aria-label, data-testid and text content. -/
structure Element where
  tag : String
  idAttr : String
  classAttr : String
  ariaLabel : String
  dataTestid : String
  textContent : String
deriving DecidableEq, Repr

/-- A loaded page: its DOM elements in document order, the visible body
text (document.body.innerText before lower-casing) and the raw markup
returned by the content call. -/
structure Page where
  elements : List Element
  bodyInnerText : String
  rawContent : String
deriving DecidableEq, Repr

/-- Tag names matched by the generic selector string of line 64 of the
script (button, a, span, div). -/
def genericTags : List String := ["button", "a", "span", "div"]

/-- querySelector for the generic selector: first element whose tag is
button, a, span or div (document order). -/
def queryGeneric (p : Page) : Option Element :=
  p.elements.find? fun e => genericTags.contains e.tag

/-- querySelector for an id selector: first element with that id. -/
def queryId (p : Page) (i : String) : Option Element :=
  p.elements.find? fun e => e.idAttr == i

/-- querySelector for a class selector: first element with that class. -/
def queryClass (p : Page) (c : String) : Option Element :=
  p.elements.find? fun e => e.classAttr == c

/-- querySelector for an aria-label attribute selector. -/
def queryAria (p : Page) (v : String) : Option Element :=
  p.elements.find? fun e => e.ariaLabel == v

/-- querySelector for a data-testid attribute selector. -/
def queryTestid (p : Page) (v : String) : Option Element :=
  p.elements.find? fun e => e.dataTestid == v

/-- The fixed consent vocabulary of line 160 of the script. -/
def consentVocabulary : List String :=
  ["accept", "accept all", "accept cookies", "allow all", "allow cookies",
   "got it", "i accept", "ok", "close"]

/-- The text scan of lines 156-163: find the first button, a, span or
div element whose lower-cased text content contains one of the consent
vocabulary entries. -/
def textScan (p : Page) : Option Element :=
  p.elements.find? fun e =>
    genericTags.contains e.tag &&
      consentVocabulary.any fun t => includes (strToLower e.textContent) t

/-- One entry of the cookieSelectors array (lines 62-93), by kind. -/
inductive Strategy
  | generic
  | byId (i : String)
  | byClass (c : String)
  | byAriaLabel (v : String)
  | byDataTestid (v : String)
  | byButtonText (t : String)
deriving DecidableEq, Repr

/-- The id selectors of lines 66-72, in source order. -/
def idSelectors : List String :=
  ["onetrust-accept-btn-handler", "accept-cookies", "cookie-accept",
   "cookie-consent-accept", "accept-all-cookies",
   "CybotCookiebotDialogBodyLevelButtonLevelOptinAllowAll",
   "gdpr-cookie-accept"]

/-- The class selectors of lines 74-78, in source order. -/
def classSelectors : List String :=
  ["accept-cookies", "cookie-accept", "cookie-consent-accept",
   "accept-all-cookies", "cookie-button--accept"]

/-- The aria-label attribute values of lines 80-81, in source order. -/
def ariaLabelValues : List String := ["Accept cookies", "accept cookies"]

/-- The data-testid attribute values of line 82. -/
def dataTestidValues : List String := ["cookie-accept"]

/-- The button text values of lines 84-92, in source order. -/
def buttonTextValues : List String :=
  ["Accept", "Accept All", "Accept Cookies", "Allow All", "Allow Cookies",
   "Got it", "I Accept", "OK", "Close"]

/-- The cookieSelectors array of lines 62-93, in source order: the
generic selector string comes first, then the id selectors, the class
selectors, the attribute selectors and the button-text selectors. -/
def cookieSelectors : List Strategy :=
  [Strategy.generic,
   Strategy.byId "onetrust-accept-btn-handler",
   Strategy.byId "accept-cookies",
   Strategy.byId "cookie-accept",
   Strategy.byId "cookie-consent-accept",
   Strategy.byId "accept-all-cookies",
   Strategy.byId "CybotCookiebotDialogBodyLevelButtonLevelOptinAllowAll",
   Strategy.byId "gdpr-cookie-accept",
   Strategy.byClass "accept-cookies",
   Strategy.byClass "cookie-accept",
   Strategy.byClass "cookie-consent-accept",
   Strategy.byClass "accept-all-cookies",
   Strategy.byClass "cookie-button--accept",
   Strategy.byAriaLabel "Accept cookies",
   Strategy.byAriaLabel "accept cookies",
   Strategy.byDataTestid "cookie-accept",
   Strategy.byButtonText "Accept",
   Strategy.byButtonText "Accept All",
   Strategy.byButtonText "Accept Cookies",
   Strategy.byButtonText "Allow All",
   Strategy.byButtonText "Allow Cookies",
   Strategy.byButtonText "Got it",
   Strategy.byButtonText "I Accept",
   Strategy.byButtonText "OK",
   Strategy.byButtonText "Close"]

/-- One try of the consent loop body (lines 150-171) for one selector.
For the generic selector the element query runs first and the text scan
of lines 156-163 runs only when it found nothing (which, with the tag
sets being equal, means the scan also finds nothing; the click on the
resulting undefined handle throws and is swallowed by the catch of line
172).  The button-text pseudo selectors are not valid CSS, so the query
throws and the catch of line 172 swallows the error: they never yield an
element. -/
def tryStrategy (p : Page) : Strategy → Option Element
  | Strategy.generic => (queryGeneric p).orElse fun _ => textScan p
  | Strategy.byId i => queryId p i
  | Strategy.byClass c => queryClass p c
  | Strategy.byAriaLabel v => queryAria p v
  | Strategy.byDataTestid v => queryTestid p v
  | Strategy.byButtonText _ => none

/-- The consent-dismissal pass of lines 149-175: try each entry of the
cookieSelectors array in order; the first strategy yielding an element
wins (that element is clicked and the loop breaks); none yields the
no-dismissal result. -/
def dismissConsent (p : Page) : Option Element :=
  List.findSome? (tryStrategy p) cookieSelectors

/-- The sign-in indicator phrases of lines 178-191, in source order. -/
def signInIndicators : List String :=
  ["sign in", "login", "log in", "subscribe", "subscription", "register",
   "account required", "please log in", "member access", "sign up",
   "create account", "premium content"]

/-- The sign-in classification of lines 193-199: some indicator phrase
occurs in the lower-cased body text and the raw markup contains the
substring form (the check of line 198 is a plain substring test on the
page content, not a query for a form element). -/
def requiresSignIn (p : Page) : Bool :=
  let pageText := strToLower p.bodyInnerText
  signInIndicators.any fun indicator =>
    includes pageText (strToLower indicator) && includes p.rawContent "form"

/-- Character sanitisation of line 212: characters outside a-z, A-Z, 0-9
become underscores. -/
def sanitizeChar (c : Char) : Char := if c.isAlphanum then c else '_'

/-- The PDF file name of line 212: one-based index, underscore, the URL
with every non-alphanumeric character replaced by underscore truncated
to 100 characters, and the pdf extension. -/
def fileName (i : Nat) (url : String) : String :=
  toString (i + 1) ++ "_" ++ String.mk ((url.toList.map sanitizeChar).take 100) ++ ".pdf"

/-- The per-URL processing outcome (spec data model). -/
inductive ProcessingOutcome
  | Saved (f : String)
  | RequiresSignIn
  | Errored (message : String)
deriving DecidableEq, Repr

/-- Kind of a JavaScript dialog a page may raise. -/
inductive DialogKind
  | alert
  | confirm
  | promptBox
  | beforeunload
deriving DecidableEq, Repr

/-- A JavaScript dialog event. -/
structure Dialog where
  kind : DialogKind
  message : String
deriving DecidableEq, Repr

/-- The response the browser session gives to a dialog. -/
inductive DialogAction
  | accept
  | dismiss
deriving DecidableEq, Repr

/-- The dialog handler installed on the page at lines 108-110: every
dialog is accepted. -/
def dialogHandler : Dialog → DialogAction := fun _ => DialogAction.accept

/-- The per-URL browser environment: whether navigation succeeds within
the timeout (and the error message when it does not), the loaded page,
whether the PDF render call succeeds (and its error message when it does
not), and the dialogs the page raises while being processed. -/
structure PageEnv where
  navOk : Bool
  navErrorMsg : String
  page : Page
  pdfOk : Bool
  pdfErrorMsg : String
  dialogs : List Dialog
deriving DecidableEq, Repr

/-- Replace the dialog list of an environment, leaving the rest alone. -/
def setDialogs (env : PageEnv) (ds : List Dialog) : PageEnv :=
  ⟨env.navOk, env.navErrorMsg, env.page, env.pdfOk, env.pdfErrorMsg, ds⟩

/-- Externally visible actions of one loop iteration, in program order:
navigation (line 140), the 2 second settle wait (line 146), a consent
click (line 167) and the 1 second wait after it (line 169), the PDF
write attempt (line 215, with its success flag), and the 1 second
inter-request wait of line 230. -/
inductive Effect
  | Navigate (url : String)
  | WaitSettle (ms : Nat)
  | Click (e : Element)
  | WaitAfterConsentClick (ms : Nat)
  | PdfWrite (f : String) (ok : Bool)
  | WaitInterRequest (ms : Nat)
deriving DecidableEq, Repr

/-- True of the PDF write attempt effect. -/
def isPdfAttempt : Effect → Bool
  | Effect.PdfWrite _ _ => true
  | _ => false

/-- True of a successful PDF write effect. -/
def isPdfSuccess : Effect → Bool
  | Effect.PdfWrite _ ok => ok
  | _ => false

/-- One iteration of the processing loop, lines 134-240.  When
navigation fails the exception skips everything else and the catch block
produces the error outcome.  Otherwise the settle wait runs, the consent
pass runs (a found element is clicked and followed by a 1 second wait),
the sign-in check runs (a gated page records the sign-in outcome and the
continue statement of line 208 skips the rest of the body, including the
inter-request wait), and otherwise the PDF is rendered: on success the 1
second inter-request wait of line 230 follows; on failure the exception
jumps to the catch block, which produces the error outcome, again
without the inter-request wait. -/
def processUrl (env : PageEnv) (url : String) (i : Nat) : ProcessingOutcome × List Effect :=
  if env.navOk then
    let consentEffs : List Effect :=
      match dismissConsent env.page with
      | some e => [Effect.Click e, Effect.WaitAfterConsentClick 1000]
      | none => []
    let pre := Effect.Navigate url :: Effect.WaitSettle 2000 :: consentEffs
    if requiresSignIn env.page then
      (ProcessingOutcome.RequiresSignIn, pre)
    else
      let f := fileName i url
      if env.pdfOk then
        (ProcessingOutcome.Saved f, pre ++ [Effect.PdfWrite f true, Effect.WaitInterRequest 1000])
      else
        (ProcessingOutcome.Errored env.pdfErrorMsg, pre ++ [Effect.PdfWrite f false])
  else
    (ProcessingOutcome.Errored env.navErrorMsg, [Effect.Navigate url])

/-- A persisted ledger record, lines 203-207 and 235-239: url, status
string and notes (empty for sign-in records, the error message for error
records). -/
structure OutcomeRecord where
  url : String
  status : String
  notes : String
deriving DecidableEq, Repr

/-- The record pushed onto signInData for one outcome: none for a saved
URL, the sign-in record of lines 203-207 for a gated URL, and the error
record of lines 235-239 for a failed URL. -/
def recordOf (url : String) : ProcessingOutcome → Option OutcomeRecord
  | ProcessingOutcome.Saved _ => none
  | ProcessingOutcome.RequiresSignIn => some ⟨url, "Requires Sign-in", ""⟩
  | ProcessingOutcome.Errored m => some ⟨url, "Error", m⟩

/-- Where a ledger write happens: after loop iteration number k (zero
based), or after the whole loop. -/
inductive FlushPoint
  | afterIteration (k : Nat)
  | atEnd
deriving DecidableEq, Repr

/-- One input entry: the URL taken from the CSV row together with the
browser environment that URL will encounter. -/
def Entry : Type := String × PageEnv

/-- The processing loop of lines 134-241, started at index i: the list
of outcomes, the accumulated signInData ledger, and the effect trace. -/
def runLoop : Nat → List (String × PageEnv) → List ProcessingOutcome × List OutcomeRecord × List Effect
  | _, [] => ([], [], [])
  | i, e :: rest =>
    let r := processUrl e.2 e.1 i
    let acc := runLoop (i + 1) rest
    (r.1 :: acc.1, (recordOf e.1 r.1).toList ++ acc.2.1, r.2 ++ acc.2.2)

/-- Dialog responses over a run: every dialog raised by any page is
answered by the handler installed once at lines 108-110. -/
def collectDialogResponses : List (String × PageEnv) → List (Dialog × DialogAction)
  | [] => []
  | e :: rest =>
    e.2.dialogs.map (fun d => (d, dialogHandler d)) ++ collectDialogResponses rest

/-- The observable result of a whole batch run. -/
structure RunResult where
  outcomes : List ProcessingOutcome
  ledger : List OutcomeRecord
  flushes : List (FlushPoint × List OutcomeRecord)
  effects : List Effect
  dialogResponses : List (Dialog × DialogAction)
deriving Repr

/-- The batch run, lines 134-269: the loop over all URLs, then a single
conditional ledger write (lines 244-269): the spreadsheet is written
once, after the loop, and only when signInData is nonempty.  No write
happens inside the loop. -/
def runBatch (es : List (String × PageEnv)) : RunResult :=
  let t := runLoop 0 es
  ⟨t.1, t.2.1,
   if t.2.1.isEmpty then [] else [(FlushPoint.atEnd, t.2.1)],
   t.2.2,
   collectDialogResponses es⟩

/-- The ledger contents accumulated after the first k iterations. -/
def ledgerUpTo (es : List (String × PageEnv)) (k : Nat) : List OutcomeRecord :=
  (runLoop 0 (es.take k)).2.1

/-! ### Definitions following the claim wording, for comparison with the code -/

/-- The flush discipline claim C2 states, as a decidable check on a run:
after each iteration whose accumulated non-Saved record list is
nonempty, the complete current record list appears as a flush taken at
that iteration; and a final flush is performed after the loop in every
run, even when nothing changed.  The code side is runBatch. -/
def claimC2check (es : List (String × PageEnv)) : Bool :=
  ((List.range es.length).all fun k =>
      (ledgerUpTo es (k + 1)).isEmpty ||
        (runBatch es).flushes.contains (FlushPoint.afterIteration k, ledgerUpTo es (k + 1)))
    && ((runBatch es).flushes.any fun pr => pr.1 == FlushPoint.atEnd)

/-- The strategy order claim C3 states: exact identifier first, then
class name, then the attribute selectors, then explicit button-text
match, and the full-text scan over interactive elements only as the last
fallback; first hit wins. -/
def specDismissClaim (p : Page) : Option Element :=
  (List.findSome? (queryId p) idSelectors).orElse fun _ =>
  (List.findSome? (queryClass p) classSelectors).orElse fun _ =>
  (List.findSome? (queryAria p) ariaLabelValues).orElse fun _ =>
  (List.findSome? (queryTestid p) dataTestidValues).orElse fun _ =>
  (List.findSome? (fun t => p.elements.find? fun e =>
      e.tag == "button" && includes (strToLower e.textContent) (strToLower t)) buttonTextValues).orElse fun _ =>
  textScan p

/-- The strategy order the code actually implements (amended claim C3),
written as an explicit priority chain of the strategy categories in
source order: the generic element query (with the text scan as its inner
fallback) first, then identifiers, class names, aria-label attributes,
the data-testid attribute, and the button-text pseudo selectors (which
never match, since the pseudo selector is invalid and the raised error
is swallowed). -/
def specDismissAmended (p : Page) : Option Element :=
  ((queryGeneric p).orElse fun _ => textScan p).orElse fun _ =>
  (List.findSome? (queryId p) idSelectors).orElse fun _ =>
  (List.findSome? (queryClass p) classSelectors).orElse fun _ =>
  (List.findSome? (queryAria p) ariaLabelValues).orElse fun _ =>
  (List.findSome? (queryTestid p) dataTestidValues).orElse fun _ =>
  List.findSome? (fun _ => (none : Option Element)) buttonTextValues

/-- Claim C4 wording: the page text contains an indicator phrase. -/
def hasSignInPhrase (p : Page) : Bool :=
  signInIndicators.any fun indicator =>
    includes (strToLower p.bodyInnerText) (strToLower indicator)

/-- Claim C4 wording: the raw markup contains a form element (an actual
form tag), as opposed to the substring test of line 198. -/
def hasFormElement (p : Page) : Bool := includes p.rawContent "<form"

/-! ### Concrete fixtures -/

/-- An ordinary article page: no consent markup, no sign-in indicators,
no DOM elements the consent selectors match. -/
def savedPage : Page :=
  ⟨[], "welcome to our news article", "<html><body><p>welcome</p></body></html>"⟩

/-- A sign-in gated page: visible text asks to please log in and the
markup contains a form tag. -/
def gatedPage : Page :=
  ⟨[], "Please log in to continue", "<html><body><form action=x><input/></form></body></html>"⟩

/-- A page whose visible text mentions login only in a navigation link
and whose markup has no form tag, yet contains the substring form inside
the word platform. -/
def platformPage : Page :=
  ⟨[], "read about login options elsewhere",
   "<html><body><a href=x>login</a> our platform news</body></html>"⟩

/-- A page whose visible text mentions login only in a navigation link
and whose markup contains neither a form tag nor the substring form. -/
def navLinkPage : Page :=
  ⟨[], "login", "<html><body><nav><a>login</a></nav><p>news</p></body></html>"⟩

/-- A plain div with navigation text, matching none of the consent
selectors by id, class, attribute or text. -/
def plainDiv : Element := ⟨"div", "", "", "", "", "site navigation"⟩

/-- A page with no consent markup at all, whose DOM consists of the one
plain div. -/
def plainPage : Page :=
  ⟨[plainDiv], "site navigation", "<html><body><div>site navigation</div></body></html>"⟩

/-- A second copy of the plain navigation div, used in the pgOrder
fixture. -/
def navDiv : Element := ⟨"div", "", "", "", "", "breadcrumbs home"⟩

/-- A consent button carrying the exact onetrust id. -/
def onetrustBtn : Element :=
  ⟨"button", "onetrust-accept-btn-handler", "", "", "", "Accept All"⟩

/-- A page holding a plain div before a consent button with an exact id
match, in document order. -/
def pgOrder : Page :=
  ⟨[navDiv, onetrustBtn], "breadcrumbs home accept all",
   "<html><body><div>breadcrumbs home</div><button>Accept All</button></body></html>"⟩

/-- A consent button with the accept-cookies id, for the consent click
witness. -/
def acceptBtn : Element := ⟨"button", "accept-cookies", "", "", "", "Accept"⟩

/-- A page whose only element is the accept button. -/
def consentPage : Page :=
  ⟨[acceptBtn], "accept", "<html><body><button>Accept</button></body></html>"⟩

/-- Environment of a URL that saves fine. -/
def envSaved : PageEnv := ⟨true, "", savedPage, true, "", []⟩

/-- Environment of a sign-in gated URL. -/
def envGated : PageEnv := ⟨true, "", gatedPage, true, "", []⟩

/-- Environment of a URL whose navigation times out. -/
def envNavFail : PageEnv :=
  ⟨false, "Navigation timeout of 45000 ms exceeded", ⟨[], "", ""⟩, true, "", []⟩

/-- Environment of a URL whose PDF render call fails. -/
def envPdfFail : PageEnv := ⟨true, "", savedPage, false, "PDF generation failed", []⟩

/-- Environment of a URL whose page is the plain navigation page. -/
def envPlain : PageEnv := ⟨true, "", plainPage, true, "", []⟩

/-- Environment of a URL whose page shows the consent button. -/
def envConsent : PageEnv := ⟨true, "", consentPage, true, "", []⟩

/-- Environment of a URL that saves fine and raises one alert dialog. -/
def envDialog : PageEnv :=
  ⟨true, "", savedPage, true, "", [⟨DialogKind.alert, "hello"⟩]⟩

/-- A one-entry batch in which the single URL saves: no ledger record
accumulates. -/
def esAllSaved : List (String × PageEnv) := [("https://ok.example", envSaved)]

/-- The three-URL batch of the spec durability example: the first URL
saves, the second requires sign-in, the third errors. -/
def esLedgerDemo : List (String × PageEnv) :=
  [("https://ok.example", envSaved),
   ("https://gated.example", envGated),
   ("https://bad.example", envNavFail)]

/-- A batch whose first URL times out and whose second URL saves. -/
def esIsolation : List (String × PageEnv) :=
  [("https://bad.example", envNavFail), ("https://ok.example", envSaved)]

/-- A five-entry batch whose fifth URL (zero-based index 4) is the URL
of the filename example. -/
def esFilename : List (String × PageEnv) :=
  [("https://g1.example", envGated), ("https://g2.example", envGated),
   ("https://g3.example", envGated), ("https://g4.example", envGated),
   ("https://a.b/c?d=1", envSaved)]

/-- A one-entry batch whose URL raises an alert dialog. -/
def esDialog : List (String × PageEnv) := [("https://ok.example", envDialog)]

/-- True of a Saved outcome. -/
def isSaved : ProcessingOutcome → Bool
  | ProcessingOutcome.Saved _ => true
  | _ => false

/-- True of a RequiresSignIn outcome. -/
def isRequiresSignIn : ProcessingOutcome → Bool
  | ProcessingOutcome.RequiresSignIn => true
  | _ => false

/-- True of an Errored outcome. -/
def isErrored : ProcessingOutcome → Bool
  | ProcessingOutcome.Errored _ => true
  | _ => false

/-! ### Helper lemmas -/

theorem findSomeAppend {α β : Type} (f : α → Option β) (l₁ l₂ : List α) :
    List.findSome? f (l₁ ++ l₂) = (List.findSome? f l₁).orElse fun _ => List.findSome? f l₂ := by
  induction l₁ with
  | nil => simp [List.findSome?, Option.orElse]
  | cons a t ih => cases h : f a <;> simp [List.findSome?, h, ih, Option.orElse]

theorem findSomeMap {α β γ : Type} (g : α → γ) (f : γ → Option β) (l : List α) :
    List.findSome? f (l.map g) = List.findSome? (fun a => f (g a)) l := by
  induction l with
  | nil => simp [List.findSome?]
  | cons a t ih => cases h : f (g a) <;> simp [List.findSome?, h, ih]

theorem findSomeSingleton {α β : Type} (f : α → Option β) (a : α) :
    List.findSome? f [a] = f a := by
  cases h : f a <;> simp [List.findSome?, h]

/-- The cookieSelectors array, cut into its category groups in source
order. -/
theorem cookieSelectorsDecomp :
    cookieSelectors =
      [Strategy.generic] ++
        (idSelectors.map Strategy.byId ++
          (classSelectors.map Strategy.byClass ++
            (ariaLabelValues.map Strategy.byAriaLabel ++
              (dataTestidValues.map Strategy.byDataTestid ++
                buttonTextValues.map Strategy.byButtonText)))) := by
  rfl

/-- The consent pass equals the explicit category priority chain. -/
theorem dismissEqAmended (p : Page) : dismissConsent p = specDismissAmended p := by
  rw [dismissConsent, cookieSelectorsDecomp]
  rw [findSomeAppend, findSomeAppend, findSomeAppend, findSomeAppend, findSomeAppend]
  rw [findSomeSingleton, findSomeMap, findSomeMap, findSomeMap, findSomeMap, findSomeMap]
  rfl

theorem runLoopLength (i : Nat) (es : List (String × PageEnv)) :
    ((runLoop i es).1).length = es.length := by
  induction es generalizing i with
  | nil => rfl
  | cons e rest ih => simp [runLoop, ih]

/-- Each outcome of the loop is the outcome of processing its own entry
at its own index, whatever the other entries do. -/
theorem runLoopGet (es : List (String × PageEnv)) :
    ∀ (k j : Nat) (h : j < es.length) (h₂ : j < ((runLoop k es).1).length),
      ((runLoop k es).1).get ⟨j, h₂⟩ =
        (processUrl (es.get ⟨j, h⟩).2 (es.get ⟨j, h⟩).1 (k + j)).1 := by
  induction es with
  | nil => intro k j h h₂; exact absurd h (Nat.not_lt_zero j)
  | cons e rest ih =>
    intro k j h h₂
    cases j with
    | zero => simp [runLoop]
    | succ j' =>
      have h' : j' < rest.length := Nat.lt_of_succ_lt_succ h
      have h₂' : j' < ((runLoop (k + 1) rest).1).length := by
        rw [runLoopLength]; exact h'
      have hres := ih (k + 1) j' h' h₂'
      have hstep : ((runLoop k (e :: rest)).1).get ⟨j' + 1, h₂⟩ =
          ((runLoop (k + 1) rest).1).get ⟨j', h₂'⟩ := rfl
      rw [hstep, hres]
      have harith : k + 1 + j' = k + (j' + 1) := by omega
      rw [harith]
      rfl

/-- The accumulated ledger is the input-ordered record list derived from
the url list and the outcome list. -/
theorem runLoopLedger (es : List (String × PageEnv)) :
    ∀ k : Nat, (runLoop k es).2.1 =
      ((es.map Prod.fst).zip (runLoop k es).1).filterMap fun pr => recordOf pr.1 pr.2 := by
  induction es with
  | nil => intro k; rfl
  | cons e rest ih =>
    intro k
    simp only [runLoop, List.map_cons, List.zip_cons_cons, List.filterMap_cons]
    cases hr : recordOf e.1 (processUrl e.2 e.1 k).1 <;> simp [hr, Option.toList, ih]

/-- Every outcome satisfies exactly one of the three outcome predicates. -/
theorem outcomeCountPartition (os : List ProcessingOutcome) :
    os.countP isSaved + os.countP isRequiresSignIn + os.countP isErrored = os.length := by
  induction os with
  | nil => rfl
  | cons o t ih =>
    cases o <;> simp [List.countP_cons, isSaved, isRequiresSignIn, isErrored] <;> omega

/-- The flush list of a run, by definition of the final conditional
write. -/
theorem runBatchFlushes (es : List (String × PageEnv)) :
    (runBatch es).flushes =
      if ((runBatch es).ledger).isEmpty then []
      else [(FlushPoint.atEnd, (runBatch es).ledger)] := rfl

/-- A saved outcome of one processing step carries the deterministic
file name of its index and URL. -/
theorem processUrlSavedName (env : PageEnv) (url : String) (i : Nat) (f : String) :
    (processUrl env url i).1 = ProcessingOutcome.Saved f → f = fileName i url := by
  unfold processUrl
  cases hnav : env.navOk
  · simp
  · cases hs : requiresSignIn env.page
    · cases hp : env.pdfOk
      · simp [hs, hp]
      · simp [hs, hp]
        intro h
        exact h.symm
    · simp [hs]

theorem anyAndConst {α : Type} (l : List α) (f : α → Bool) (b : Bool) :
    (l.any fun a => f a && b) = (l.any f && b) := by
  cases b
  · induction l with
    | nil => rfl
    | cons x t ih => simp [List.any_cons, ih]
  · simp

/-- Every response collected by the installed dialog handler accepts. -/
theorem collectDialogAccept (es : List (String × PageEnv)) (d : Dialog) (a : DialogAction) :
    (d, a) ∈ collectDialogResponses es → a = DialogAction.accept := by
  induction es with
  | nil => intro h; cases h
  | cons e rest ih =>
    intro h
    rcases List.mem_append.mp h with h | h
    · rcases List.mem_map.mp h with ⟨d', _, hda⟩
      cases hda
      rfl
    · exact ih h

/-! ### Claim theorems -/

/-- Claim C1: every batch run that processes a UrlEntry sequence of
length n to completion yields exactly one ProcessingOutcome per URL, and
the number of Saved plus RequiresSignIn plus Errored outcomes equals n. -/
theorem claimC1_outcome_accounting (es : List (String × PageEnv)) :
    ((runBatch es).outcomes).length = es.length ∧
      ((runBatch es).outcomes).countP isSaved +
        ((runBatch es).outcomes).countP isRequiresSignIn +
        ((runBatch es).outcomes).countP isErrored = es.length := by
  refine ⟨runLoopLength 0 es, ?_⟩
  rw [outcomeCountPartition]
  exact runLoopLength 0 es

/-- Claim C2, as stated, is false on the code: in the one-URL batch
whose URL saves, the claim requires a final ledger flush even though
nothing changed, but the write of lines 244-269 is skipped entirely when
signInData is empty, so the run performs no flush at all. -/
theorem claimC2_counterexample : claimC2check esAllSaved = false := rfl

/-- Claim C2 amended: the Outcome Ledger is written exactly once, after
the URL sequence is exhausted, and only when at least one non-Saved
record accumulated; the single write contains the complete record
sequence in input order; no flush happens after an individual iteration,
so between iterations the ledger on disk is still empty.  The concrete
three-URL scenario (URL 2 requires sign-in, URL 3 errors) yields exactly
the two records, in input order, in the one final flush. -/
theorem claimC2_amended_single_final_flush :
    (∀ es : List (String × PageEnv),
        (((runBatch es).flushes).all fun pr => pr.1 == FlushPoint.atEnd) = true) ∧
      (∀ (es : List (String × PageEnv)) (r : List OutcomeRecord),
        ((FlushPoint.atEnd, r) ∈ (runBatch es).flushes) ↔
          (r = (runBatch es).ledger ∧ ((runBatch es).ledger).isEmpty = false)) ∧
      (∀ es : List (String × PageEnv),
        (runBatch es).ledger =
          ((es.map Prod.fst).zip (runBatch es).outcomes).filterMap fun pr => recordOf pr.1 pr.2) ∧
      (runBatch esLedgerDemo).ledger =
        [⟨"https://gated.example", "Requires Sign-in", ""⟩,
         ⟨"https://bad.example", "Error", "Navigation timeout of 45000 ms exceeded"⟩] ∧
      (runBatch esLedgerDemo).flushes =
        [(FlushPoint.atEnd,
          [⟨"https://gated.example", "Requires Sign-in", ""⟩,
           ⟨"https://bad.example", "Error", "Navigation timeout of 45000 ms exceeded"⟩])] := by
  refine ⟨?_, ?_, ?_, rfl, rfl⟩
  · intro es
    rw [runBatchFlushes]
    cases hL : (runBatch es).ledger <;> simp
  · intro es r
    rw [runBatchFlushes]
    cases hL : (runBatch es).ledger with
    | nil => simp
    | cons a t => simp
  · intro es
    exact runLoopLedger es 0

/-- Claim C3, as stated, is false on the code: on a page holding a plain
div before a button with the exact onetrust identifier, the claimed
priority order (identifier first, full-text scan last) would click the
identified button, but the code tries the generic selector string first
(it is the first entry of the cookieSelectors array) and clicks the
plain div. -/
theorem claimC3_counterexample :
    dismissConsent pgOrder = some navDiv ∧
      specDismissClaim pgOrder = some onetrustBtn ∧
      (navDiv == onetrustBtn) = false :=
  ⟨rfl, rfl, rfl⟩

/-- Claim C3 amended: consent dismissal tries its strategies in the
fixed source order: the generic element query over button, a, span and
div elements (with the text scan as its inner fallback) first, then
exact identifiers, then class names, then the attribute selectors, then
the button-text pseudo selectors (which never yield an element, the
invalid pseudo selector raising a swallowed error); the first strategy
yielding an actionable element wins: the element is clicked, a short
settle delay follows, and no further strategies are tried. -/
theorem claimC3_amended_strategy_order :
    (∀ p : Page, dismissConsent p = specDismissAmended p) ∧
      (∀ (env : PageEnv) (url : String) (i : Nat) (e : Element),
        env.navOk = true → dismissConsent env.page = some e →
          Effect.Click e ∈ (processUrl env url i).2 ∧
            Effect.WaitAfterConsentClick 1000 ∈ (processUrl env url i).2) := by
  constructor
  · exact dismissEqAmended
  · intro env url i e hnav hd
    cases hs : requiresSignIn env.page <;> cases hp : env.pdfOk <;>
      simp [processUrl, hnav, hd, hs, hp]

/-- Witness for claim C3 amended: on the consent-button page the button
is clicked and the settle delay follows. -/
theorem claimC3_witness :
    Effect.Click acceptBtn ∈ (processUrl envConsent "https://c.example" 0).2 ∧
      Effect.WaitAfterConsentClick 1000 ∈ (processUrl envConsent "https://c.example" 0).2 :=
  claimC3_amended_strategy_order.2 envConsent "https://c.example" 0 acceptBtn rfl rfl

/-- Claim C4, as stated, is false on the code: the platform page is
classified gated (its visible text contains login, and its markup
contains the substring form inside the word platform), yet its markup
contains no form element, so the claimed two-sided characterisation
(gated iff phrase and form element) fails at this page. -/
theorem claimC4_counterexample :
    requiresSignIn platformPage = true ∧ hasFormElement platformPage = false :=
  ⟨rfl, rfl⟩

/-- Claim C4 amended: a page is classified sign-in gated iff its visible
text contains at least one phrase of the fixed set and its raw markup
contains the substring form (any form tag satisfies this, but so does
any other occurrence of the substring); the please-log-in page with a
form tag is gated, and the page with login only in a navigation link and
no occurrence of the substring form is not gated. -/
theorem claimC4_amended_substring_conjunction :
    (∀ p : Page, requiresSignIn p = true ↔
        (hasSignInPhrase p = true ∧ includes p.rawContent "form" = true)) ∧
      requiresSignIn gatedPage = true ∧ requiresSignIn navLinkPage = false := by
  refine ⟨?_, rfl, rfl⟩
  intro p
  unfold requiresSignIn hasSignInPhrase
  rw [anyAndConst]
  simp [Bool.and_eq_true]

/-- Claim C5: the batch processes every URL (no abort), each outcome is
a function of that URL's own entry and index alone (so a failure of one
URL never prevents a later URL from being processed and saved), and a
navigation failure is converted into the Errored outcome carrying its
message. -/
theorem claimC5_failure_isolation :
    (∀ es : List (String × PageEnv), ((runBatch es).outcomes).length = es.length) ∧
      (∀ (es : List (String × PageEnv)) (j : Nat) (h : j < es.length)
          (h₂ : j < ((runBatch es).outcomes).length),
        ((runBatch es).outcomes).get ⟨j, h₂⟩ =
          (processUrl (es.get ⟨j, h⟩).2 (es.get ⟨j, h⟩).1 j).1) ∧
      (∀ (env : PageEnv) (url : String) (i : Nat),
        env.navOk = false →
          (processUrl env url i).1 = ProcessingOutcome.Errored env.navErrorMsg) := by
  refine ⟨fun es => runLoopLength 0 es, ?_, ?_⟩
  · intro es j h h₂
    have hg := runLoopGet es 0 j h h₂
    rw [Nat.zero_add] at hg
    exact hg
  · intro env url i hnav
    simp [processUrl, hnav]

/-- Witness for claim C5: in the batch whose first URL times out, the
second URL is still processed and saved. -/
theorem claimC5_witness :
    ((runBatch esIsolation).outcomes).get ⟨1, by decide⟩ =
      ProcessingOutcome.Saved "2_https___ok_example.pdf" :=
  Eq.trans (claimC5_failure_isolation.2.1 esIsolation 1 (by decide) (by decide)) (by decide)

/-- Claim C6 is right about the intent and the code is wrong: on the
plain page with no consent markup whatsoever, the consent pass does not
return false without side effects; the generic selector string (first
entry of cookieSelectors) matches the first button, a, span or div
element of the page regardless of its text - here the plain navigation
div - so the code clicks that div and reports the cookies accepted.
This contradicts the comment on line 64 of the script (generic elements
that might contain these texts) and the comment on line 154 (find by
text content), whose intent the text scan implements: by text, nothing
on this page matches. -/
theorem claimC6_code_eval :
    dismissConsent plainPage = some plainDiv ∧
      Effect.Click plainDiv ∈ (processUrl envPlain "https://plain.example" 0).2 :=
  ⟨rfl, by decide⟩

/-- Claim C7: every Saved outcome of a batch run carries the
deterministic file name built from its one-based sequence index and the
sanitised URL, and the concrete example of sequence index 4 (zero based)
with the URL of the spec produces the expected name. -/
theorem claimC7_filename_deterministic :
    (∀ (es : List (String × PageEnv)) (j : Nat) (h : j < es.length)
        (h₂ : j < ((runBatch es).outcomes).length) (f : String),
      ((runBatch es).outcomes).get ⟨j, h₂⟩ = ProcessingOutcome.Saved f →
        f = fileName j (es.get ⟨j, h⟩).1) ∧
      fileName 4 "https://a.b/c?d=1" = "5_https___a_b_c_d_1.pdf" := by
  refine ⟨?_, rfl⟩
  intro es j h h₂ f hs
  have hg := runLoopGet es 0 j h h₂
  rw [Nat.zero_add] at hg
  have hb : ((runBatch es).outcomes).get ⟨j, h₂⟩ = ((runLoop 0 es).1).get ⟨j, h₂⟩ := rfl
  rw [hb, hg] at hs
  exact processUrlSavedName _ _ _ _ hs

/-- Witness for claim C7: in the five-entry batch whose fifth URL is the
example URL, the saved file name is the expected one. -/
theorem claimC7_witness :
    "5_https___a_b_c_d_1.pdf" = fileName 4 "https://a.b/c?d=1" :=
  claimC7_filename_deterministic.1 esFilename 4 (by decide) (by decide)
    "5_https___a_b_c_d_1.pdf" (by decide)

/-- Claim C8: a URL that is neither gated nor errored performs exactly
one PDF write attempt, and it succeeds; a gated URL performs no write
attempt at all; an errored URL performs no successful write. -/
theorem claimC8_write_effects (env : PageEnv) (url : String) (i : Nat) :
    (∀ f : String, (processUrl env url i).1 = ProcessingOutcome.Saved f →
        ((processUrl env url i).2.countP isPdfAttempt = 1 ∧
          (processUrl env url i).2.countP isPdfSuccess = 1)) ∧
      ((processUrl env url i).1 = ProcessingOutcome.RequiresSignIn →
        (processUrl env url i).2.countP isPdfAttempt = 0) ∧
      (∀ m : String, (processUrl env url i).1 = ProcessingOutcome.Errored m →
        (processUrl env url i).2.countP isPdfSuccess = 0) := by
  cases hnav : env.navOk <;> cases hd : dismissConsent env.page <;>
    cases hs : requiresSignIn env.page <;> cases hp : env.pdfOk <;>
      simp [processUrl, hnav, hd, hs, hp, List.countP_cons, List.countP_append,
        isPdfAttempt, isPdfSuccess]

/-- Witness for claim C8: one successful write attempt for the saved
URL, no attempt for the gated URL, no successful write for the URL whose
render fails. -/
theorem claimC8_witness :
    ((processUrl envSaved "https://ok.example" 0).2.countP isPdfAttempt = 1 ∧
        (processUrl envSaved "https://ok.example" 0).2.countP isPdfSuccess = 1) ∧
      (processUrl envGated "https://gated.example" 0).2.countP isPdfAttempt = 0 ∧
      (processUrl envPdfFail "https://ok.example" 0).2.countP isPdfSuccess = 0 :=
  ⟨(claimC8_write_effects envSaved "https://ok.example" 0).1
      "1_https___ok_example.pdf" (by decide),
   (claimC8_write_effects envGated "https://gated.example" 0).2.1 (by decide),
   (claimC8_write_effects envPdfFail "https://ok.example" 0).2.2
      "PDF generation failed" (by decide)⟩

/-- Claim C9, as stated, is false on the code: the gated URL completes
with the RequiresSignIn outcome, yet its effect trace has no 1 second
inter-request wait - the continue statement of line 208 jumps straight
to the next URL, skipping the wait of line 230 (and the error path skips
it too, the exception jumping to the catch block). -/
theorem claimC9_counterexample :
    (processUrl envGated "https://gated.example" 0).1 = ProcessingOutcome.RequiresSignIn ∧
      ((processUrl envGated "https://gated.example" 0).2.contains
        (Effect.WaitInterRequest 1000)) = false :=
  ⟨rfl, rfl⟩

/-- Claim C9 amended: the fixed 1 second inter-request delay is taken
exactly when the URL's outcome is Saved; URLs whose outcome is
RequiresSignIn or Errored proceed to the next URL without it. -/
theorem claimC9_amended_delay_only_after_save (env : PageEnv) (url : String) (i : Nat) :
    (Effect.WaitInterRequest 1000 ∈ (processUrl env url i).2) ↔
      isSaved (processUrl env url i).1 = true := by
  cases hnav : env.navOk <;> cases hd : dismissConsent env.page <;>
    cases hs : requiresSignIn env.page <;> cases hp : env.pdfOk <;>
      simp [processUrl, hnav, hd, hs, hp, isSaved]

/-- Claim C10: every JavaScript dialog raised by any page during a run
is answered by the handler installed at lines 108-110, which accepts it;
and a URL's processing result does not depend on the dialogs its page
raises, so no dialog blocks processing. -/
theorem claimC10_dialogs_accepted :
    (∀ (es : List (String × PageEnv)) (d : Dialog) (a : DialogAction),
        (d, a) ∈ (runBatch es).dialogResponses → a = DialogAction.accept) ∧
      (∀ (env : PageEnv) (url : String) (i : Nat) (ds : List Dialog),
        processUrl (setDialogs env ds) url i = processUrl env url i) := by
  constructor
  · intro es d a hmem
    exact collectDialogAccept es d a hmem
  · intro env url i ds
    rfl

/-- Witness for claim C10: the alert dialog of the dialog batch is
accepted, and replacing the dialog list leaves processing unchanged. -/
theorem claimC10_witness :
    DialogAction.accept = DialogAction.accept ∧
      processUrl (setDialogs envSaved [⟨DialogKind.alert, "hello"⟩]) "https://ok.example" 0 =
        processUrl envSaved "https://ok.example" 0 :=
  ⟨claimC10_dialogs_accepted.1 esDialog ⟨DialogKind.alert, "hello"⟩ DialogAction.accept
      (by decide),
   claimC10_dialogs_accepted.2 envSaved "https://ok.example" 0 [⟨DialogKind.alert, "hello"⟩]⟩

end PdfDownloader

